import Mathlib

/-!
# overlap-avalara: the overlap predicate and its HTTP handler

A shallow embedding of `internal/overlap/overlap_service.go`, of the data
model in `data/data_range.go`, of the handler in `internal/api`, and of the
envelope packages `pkg/response`, `pkg/error`, `pkg/customerror` and
`pkg/http`, followed by their properties.

Timestamps are Go `time.Time` values.  Every `DateRange` of this program is
built by JSON decoding or by `time.Parse`, neither of which attaches a
monotonic clock reading, so `Time.Before` follows the wall-clock branch of the
standard library: it compares `sec()` first and `nsec()` second.

Effects are passed explicitly: a logger or a service acts on a state `σ`, a
call that can panic returns `Except Panic`, and a `Context` records every
status and object handed to gin for writing.  The library functions the
handler relies on, gin's JSON binder and `net/http.StatusText`, are the
parameter `Libs`.
-/

namespace Overlap

/-! ## Data model -/

/-- Wall-clock content of a Go `time.Time`: whole seconds and the nanoseconds
within that second, which the standard library keeps in `[0, 999999999]`. -/
structure Time where
  sec : Int
  nsec : Nat
  nsec_lt : nsec < 1000000000
deriving DecidableEq

/-- Go `Time.Before` without monotonic readings:
`ts < us || ts == us && t.nsec() < u.nsec()`. -/
def Time.Before (t u : Time) : Bool :=
  decide (t.sec < u.sec) || (decide (t.sec = u.sec) && decide (t.nsec < u.nsec))

/-- The instant a `Time` denotes, in nanoseconds on the time line. -/
def Time.instant (t : Time) : Int :=
  t.sec * 1000000000 + (t.nsec : Int)

/-- Instants are ordered along the time line; two `Time` values denoting the
same instant are the same value. -/
instance : LinearOrder Time :=
  LinearOrder.lift' Time.instant (by
    intro t u h
    obtain ⟨ts, tn, ht⟩ := t
    obtain ⟨us, un, hu⟩ := u
    simp only [Time.instant] at h
    have hs : ts = us := by omega
    subst hs
    have hn : tn = un := by omega
    subst hn
    rfl)

/-- Go `data.DateRange`: a start and an end timestamp, with no invariant
relating them. -/
structure DateRange where
  Start : Time
  End : Time
deriving DecidableEq

/-! ## Codes and custom errors -/

/-- Go `constants.Code`, a string type. -/
abbrev Code := String

/-- Go `constants.RequestInvalid`. -/
def constants.RequestInvalid : Code := "REQUEST_INVALID"

/-- A value held in a Go `interface{}` / `any`: nil, a boolean, an integer, a
string, a map of strings, or any other value given by its JSON encoding. -/
inductive Value where
  | nil
  | bool (b : Bool)
  | int (i : Int)
  | str (s : String)
  | strMap (entries : List (String × String))
  | json (encoded : String)
deriving DecidableEq

/-- A Go map value: the nil map, or a table of entries read with `get?`. -/
inductive GoMap (κ ν : Type) where
  | nil
  | make (entries : List (κ × ν))
deriving DecidableEq

/-- Go `v, ok := m[k]`. -/
def GoMap.get? {κ ν : Type} [DecidableEq κ] (m : GoMap κ ν) (k : κ) : Option ν :=
  match m with
  | GoMap.nil => none
  | GoMap.make entries => (entries.find? (fun kv => decide (kv.1 = k))).map Prod.snd

/-- Go `customerror.CustomError`.  The field `exists_` is Go's `exists`; `err`
holds the text of the wrapped error, or `none` for a nil error. -/
structure CustomError where
  code : Code
  message : String
  data : Value
  errMap : GoMap String String
  err : Option String
  exists_ : Bool
  retryable : Bool
  notify : Bool
  logParams : GoMap String Value
deriving DecidableEq

/-- Go `customerror.NewCustomError`: build the error, run the options, then
set `err` from the code and message and re-initialise both maps. -/
def customerror.NewCustomError (errorCode : Code) (error : String)
    (options : List (CustomError → CustomError)) : CustomError :=
  let c : CustomError :=
    { code := errorCode, message := error, data := Value.nil, errMap := GoMap.nil,
      err := none, exists_ := true, retryable := false, notify := true,
      logParams := GoMap.nil }
  let c := options.foldl (fun acc option => option acc) c
  { c with
    err := some ("Code: " ++ c.code ++ " | " ++ c.message)
    logParams := GoMap.make []
    errMap := GoMap.make [] }

/-- Go `CustomError.ErrorCode`. -/
def CustomError.ErrorCode (c : CustomError) : Code := c.code

/-- Go `CustomError.UserMessage`. -/
def CustomError.UserMessage (c : CustomError) : String := c.message

/-- Go `CustomError.ErrorData`. -/
def CustomError.ErrorData (c : CustomError) : Value := c.data

/-- Go `CustomError.ErrorMap`. -/
def CustomError.ErrorMap (c : CustomError) : GoMap String String := c.errMap

/-- Go `len(m)` on a map. -/
def GoMap.len {κ ν : Type} (m : GoMap κ ν) : Nat :=
  match m with
  | GoMap.nil => 0
  | GoMap.make entries => entries.length

/-- Go `customerror.NewCustomErrorWithPayload`. -/
def customerror.NewCustomErrorWithPayload (errorCode : Code) (error : String) (data : Value)
    (options : List (CustomError → CustomError)) : CustomError :=
  let c := customerror.NewCustomError errorCode error options
  { c with data := data }

/-- Go `customerror.WithRetryable`. -/
def customerror.WithRetryable (retryable : Bool) : CustomError → CustomError :=
  fun c => { c with retryable := retryable }

/-- Go `customerror.WithShouldNotify`. -/
def customerror.WithShouldNotify (shouldNotify : Bool) : CustomError → CustomError :=
  fun c => { c with notify := shouldNotify }

/-- Go `customerror.WithErrors`. -/
def customerror.WithErrors (errors : GoMap String String) : CustomError → CustomError :=
  fun c => { c with errMap := errors }

/-- Go `customerror.WithData`. -/
def customerror.WithData (data : Value) : CustomError → CustomError :=
  fun c => { c with data := data }

/-- Go `customerror.RequestInvalidError`: build the error with `err` and
both maps set, then run the options. -/
def customerror.RequestInvalidError (message : String)
    (options : List (CustomError → CustomError)) : CustomError :=
  let c : CustomError :=
    { code := constants.RequestInvalid, message := message, data := Value.nil,
      errMap := GoMap.nil, err := none, exists_ := true, retryable := false, notify := true,
      logParams := GoMap.nil }
  let c : CustomError :=
    { c with
      err := some ("Code: " ++ c.code ++ " | " ++ c.message)
      logParams := GoMap.make []
      errMap := GoMap.make [] }
  options.foldl (fun acc option => option acc) c

/-- Go `CustomError.Exists`. -/
def CustomError.Exists (c : CustomError) : Bool := c.exists_

/-- Go `CustomError.LoggingParams`. -/
def CustomError.LoggingParams (c : CustomError) : GoMap String Value := c.logParams

/-- Go `CustomError.ErrorMessage`. -/
def CustomError.ErrorMessage (c : CustomError) : String := c.message

/-- Go `CustomError.ShouldNotify`. -/
def CustomError.ShouldNotify (c : CustomError) : Bool := c.notify

/-- Go `CustomError.Retryable`. -/
def CustomError.Retryable (c : CustomError) : Bool := c.retryable

/-- Go `CustomError.ErrorString`. -/
def CustomError.ErrorString (c : CustomError) : String := c.message

/-! ## Logger collaborator -/

/-- A value handed to a logger method through its variadic `interface{}`
parameter. -/
inductive LogArg where
  | str (s : String)
  | bool (b : Bool)
  | err (e : CustomError)
deriving DecidableEq

/-- Go `logger.Logger`: the eight fire-and-forget methods of the interface,
each acting on the logger's own state `σ`. -/
structure Logger (σ : Type) where
  Info : List LogArg → σ → σ
  Infof : String → List LogArg → σ → σ
  Error : List LogArg → σ → σ
  Errorf : String → List LogArg → σ → σ
  Warn : List LogArg → σ → σ
  Warnf : String → List LogArg → σ → σ
  Debug : List LogArg → σ → σ
  Debugf : String → List LogArg → σ → σ

/-- One recorded call of a logger method. -/
inductive LogCall where
  | Info (args : List LogArg)
  | Infof (format : String) (args : List LogArg)
  | Error (args : List LogArg)
  | Errorf (format : String) (args : List LogArg)
  | Warn (args : List LogArg)
  | Warnf (format : String) (args : List LogArg)
  | Debug (args : List LogArg)
  | Debugf (format : String) (args : List LogArg)
deriving DecidableEq

/-- A logger that appends every call to a trace, in the manner of the
`MockLogger` of the tests. -/
def recordingLogger : Logger (List LogCall) where
  Info args tr := tr ++ [LogCall.Info args]
  Infof format args tr := tr ++ [LogCall.Infof format args]
  Error args tr := tr ++ [LogCall.Error args]
  Errorf format args tr := tr ++ [LogCall.Errorf format args]
  Warn args tr := tr ++ [LogCall.Warn args]
  Warnf format args tr := tr ++ [LogCall.Warnf format args]
  Debug args tr := tr ++ [LogCall.Debug args]
  Debugf format args tr := tr ++ [LogCall.Debugf format args]

/-- A run-time failure of a Go call. -/
inductive Panic where
  | nilPointerDereference
  | handlersAlreadyRegistered
deriving DecidableEq

/-- Go `CustomError.Error`: the text of the wrapped error; calling it on a
nil `err` panics. -/
def CustomError.Error (c : CustomError) : Except Panic String :=
  match c.err with
  | some text => Except.ok text
  | none => Except.error Panic.nilPointerDereference

/-! ## The service -/

/-- Go `overlapService`: its only field is the logger, an interface value
that may be nil. -/
structure overlapService (σ : Type) where
  Logger : Option (Logger σ)

/-- Go `overlap.New`. -/
def New {σ : Type} (logger : Option (Logger σ)) : overlapService σ :=
  { Logger := logger }

/-- Go `overlapService.Check`: log through `os.Logger.Info`, then return
`r1.Start.Before(r2.End) && r2.Start.Before(r1.End)`.  Calling `Info` on a nil
interface value panics. -/
def overlapService.Check {σ : Type} (os : overlapService σ) (r1 r2 : DateRange) (s : σ) :
    Except Panic (Bool × σ) :=
  match os.Logger with
  | none => Except.error Panic.nilPointerDereference
  | some l =>
    let s1 := l.Info [LogArg.str "Checking time range  with overlapservice"] s
    Except.ok (r1.Start.Before r2.End && r2.Start.Before r1.End, s1)

/-- The boolean a call of `Check` returned, if it returned. -/
def returned {σ : Type} (r : Except Panic (Bool × σ)) : Option Bool :=
  match r with
  | Except.ok (b, _) => some b
  | Except.error _ => none

/-! ## Fixtures of the test suite -/

/-- The timestamp `2025-07-01T<h>:<m>:<s>Z` of the test tables, as
`time.Parse(time.RFC3339, _)` yields it. -/
def july1 (h m s : Nat) : Time :=
  { sec := 1751328000 + ((h * 3600 + m * 60 + s : Nat) : Int), nsec := 0, nsec_lt := by decide }

/-- Go `createDateRange` of the tests, on already parsed timestamps. -/
def createDateRange (start stop : Time) : DateRange :=
  { Start := start, End := stop }

/-! ## HTTP status codes -/

/-- Go `http.StatusCode`, an int type. -/
abbrev StatusCode := Int

/-- Go `StatusCode.Code`. -/
def StatusCode.Code (s : StatusCode) : Int := s

/-- Go `StatusCode.Is2xx`. -/
def StatusCode.Is2xx (s : StatusCode) : Bool :=
  decide (s.Code > 199) && decide (s.Code < 300)

/-- Go `StatusCode.Is3xx`. -/
def StatusCode.Is3xx (s : StatusCode) : Bool :=
  decide (s.Code > 299) && decide (s.Code < 400)

/-- Go `StatusCode.Is4xx`. -/
def StatusCode.Is4xx (s : StatusCode) : Bool :=
  decide (s.Code > 399) && decide (s.Code < 500)

/-- Go `StatusCode.Is5xx`. -/
def StatusCode.Is5xx (s : StatusCode) : Bool :=
  decide (s.Code > 499) && decide (s.Code < 600)

def http.StatusOK : StatusCode := 200

def http.StatusNoContent : StatusCode := 204

def http.StatusBadRequest : StatusCode := 400

def http.StatusUnauthorized : StatusCode := 401

def http.StatusForbidden : StatusCode := 403

def http.StatusRequestTimeout : StatusCode := 408

def http.StatusUnprocessableEntity : StatusCode := 422

def http.StatusInternalServerError : StatusCode := 500

/-- Go `http.StatusCodeToStringMap`. -/
def StatusCodeToStringMap : GoMap StatusCode String :=
  GoMap.make
    [ (http.StatusBadRequest, "Invalid Request"),
      (http.StatusInternalServerError, "Something went wrong"),
      (http.StatusUnauthorized, "You don't have access to this action"),
      (http.StatusOK, "Success"),
      (http.StatusForbidden, "Validation failed"),
      (http.StatusUnprocessableEntity, "Invalid Request"),
      (http.StatusRequestTimeout, "Request Timeout"),
      (http.StatusNoContent, "No Content") ]

/-- Go `data.OverlapRequest`. -/
structure OverlapRequest where
  Range1 : DateRange
  Range2 : DateRange
deriving DecidableEq

/-- The library functions the program calls and does not define: gin's
`ShouldBindJSON` at type `OverlapRequest`, which yields the decoded request or
the text of the binding error, and `net/http.StatusText`. -/
structure Libs where
  ShouldBindJSON : String → Except String OverlapRequest
  StatusText : Int → String

/-- Go `StatusCode.String`: the text of `StatusCodeToStringMap`, or the
standard status text of a code that is not in the map. -/
def StatusCode.String (libs : Libs) (s : StatusCode) : String :=
  match StatusCodeToStringMap.get? s with
  | some statusText => statusText
  | none => libs.StatusText s.Code

/-! ## Response envelopes -/

/-- Go `response.Success`. -/
structure Success where
  IsSuccess : Bool
  StatusCode : Int
  Data : Value
deriving DecidableEq

/-- Go `response.Error`. -/
structure response.Error where
  Message : String
  Errors : GoMap String String
  Data : Value
deriving DecidableEq

/-- Go `response.ErrorResponse`. -/
structure ErrorResponse where
  IsSuccess : Bool
  StatusCode : Int
  Error : response.Error
deriving DecidableEq

/-- An object handed to gin for writing: one of the two envelopes, or the
plain text the router writes itself. -/
inductive ResponseBody where
  | success (res : Success)
  | error (res : ErrorResponse)
  | text (body : String)
deriving DecidableEq

/-- An incoming HTTP request. -/
structure Request where
  Method : String
  Path : String
  Body : String
deriving DecidableEq

/-- The part of `gin.Context` the handlers use: the request, the abort flag,
and the status and object of every write, in order. -/
structure Context where
  Request : Request
  aborted : Bool
  written : List (Int × ResponseBody)
deriving DecidableEq

/-- Go `gin.Context.AbortWithStatusJSON`: abort the chain and write `obj`
under status `code`. -/
def Context.AbortWithStatusJSON (c : Context) (code : Int) (obj : ResponseBody) : Context :=
  { c with aborted := true, written := c.written ++ [(code, obj)] }

/-- Go `response.NewSuccess`. -/
def NewSuccess (ctx : Context) (data : Value) : Context :=
  let res : Success :=
    { IsSuccess := true, StatusCode := http.StatusOK.Code, Data := data }
  ctx.AbortWithStatusJSON http.StatusOK.Code (ResponseBody.success res)

/-- Go `response.Option`, a function that rewrites the error envelope. -/
abbrev response.Option := ErrorResponse → ErrorResponse

/-- Go `response.generateErrorResponse`. -/
def generateErrorResponse (libs : Libs) (ctx : Context) (customError : CustomError)
    (statusCode : StatusCode) (options : List response.Option) : Context :=
  let message : String :=
    if customError.ErrorCode = constants.RequestInvalid then customError.UserMessage
    else statusCode.String libs
  let res : ErrorResponse :=
    { IsSuccess := false
      StatusCode := statusCode.Code
      Error :=
        { Message := message
          Data := customError.ErrorData
          Errors := customError.ErrorMap } }
  let res := options.foldl (fun acc option => option acc) res
  ctx.AbortWithStatusJSON statusCode.Code (ResponseBody.error res)

/-- Go `response.NewErrorResponse`. -/
def response.NewErrorResponse (libs : Libs) (ctx : Context) (customError : CustomError)
    (customErrorCodeToErrorRespMapping : GoMap Code StatusCode)
    (options : List response.Option) : Context :=
  let statusCode : StatusCode :=
    match customErrorCodeToErrorRespMapping.get? customError.ErrorCode with
    | some statusCode => statusCode
    | none => http.StatusInternalServerError
  generateErrorResponse libs ctx customError statusCode options

/-- The package-level variables of package `response`: the mapping, and
whether `once` has already run. -/
structure response.Vars where
  customCodeToHttpCodeMapping : GoMap Code StatusCode
  once : Bool
deriving DecidableEq

/-- The variables of package `response` at program start: an empty mapping
and a fresh `sync.Once`. -/
def response.initVars : response.Vars :=
  { customCodeToHttpCodeMapping := GoMap.make [], once := false }

/-- Go `response.SetCustomErrorMapping`: `once.Do` runs the assignment only
if `once` has not run before. -/
def SetCustomErrorMapping (mapping : GoMap Code StatusCode) (v : response.Vars) :
    response.Vars :=
  if v.once then v
  else { customCodeToHttpCodeMapping := mapping, once := true }

/-- Go `response.NewErrorResponseV2`. -/
def NewErrorResponseV2 (libs : Libs) (v : response.Vars) (ctx : Context)
    (customError : CustomError) (options : List response.Option) : Context :=
  let statusCode : StatusCode :=
    match v.customCodeToHttpCodeMapping.get? customError.ErrorCode with
    | some statusCode => statusCode
    | none => http.StatusInternalServerError
  generateErrorResponse libs ctx customError statusCode options

/-- Go `response.NewErrorResponseWithMessage`. -/
def NewErrorResponseWithMessage (libs : Libs) (v : response.Vars) (ctx : Context)
    (cusErr : CustomError) (message : String) : Context :=
  NewErrorResponseV2 libs v ctx cusErr
    [fun err => { err with Error := { err.Error with Message := message } }]

/-! ## Package `error` -/

def error.BadRequest : Code := "BAD_REQUEST"

def error.NotFound : Code := "NOT_FOUND"

def error.RequestNotValid : Code := "REQUEST_NOT_VALID"

def error.RequestInvalid : Code := "REQUEST_INVALID"

def error.ParseIntError : Code := "PARSE_INT_ERROR"

def error.StatusUnauthorized : Code := "UNAUTHORIZED_ERROR"

/-- Go `error.CustomCodeToHttpCodeMapping`. -/
def error.CustomCodeToHttpCodeMapping : GoMap Code StatusCode :=
  GoMap.make
    [ (error.RequestInvalid, http.StatusBadRequest),
      (error.NotFound, http.StatusBadRequest),
      (error.RequestNotValid, http.StatusForbidden),
      (error.BadRequest, http.StatusBadRequest),
      (error.ParseIntError, http.StatusBadRequest),
      (error.StatusUnauthorized, http.StatusUnauthorized) ]

/-- Go `error.NewErrorResponse`. -/
def error.NewErrorResponse (libs : Libs) (ctx : Context) (cusErr : CustomError) : Context :=
  response.NewErrorResponse libs ctx cusErr error.CustomCodeToHttpCodeMapping []

/-! ## Package `api` -/

/-- Go `overlap.OverlapService`, the interface with the single method
`Check`; an implementation acts on the state `σ` and may panic. -/
structure OverlapService (σ : Type) where
  Check : DateRange → DateRange → σ → Except Panic (Bool × σ)

/-- The interface value holding an `overlapService`, as `overlap.New` returns
it. -/
def overlapService.toOverlapService {σ : Type} (os : overlapService σ) : OverlapService σ :=
  { Check := os.Check }

/-- The package-level variables `overlapService` and `appLogger` of package
`api`; both are nil until `RegisterEndpoint` runs. -/
structure Globals (σ : Type) where
  overlapService : Option (OverlapService σ)
  appLogger : Option (Logger σ)

/-- Go `api.CheckOverlap`. -/
def CheckOverlap {σ : Type} (libs : Libs) (g : Globals σ) (c : Context) (s : σ) :
    Except Panic (Context × σ) :=
  match libs.ShouldBindJSON c.Request.Body with
  | Except.error err =>
    let cusErr := customerror.NewCustomError error.BadRequest err []
    match g.appLogger with
    | none => Except.error Panic.nilPointerDereference
    | some appLogger =>
      let s1 := appLogger.Errorf "Unable to bind with json body :%v" [LogArg.err cusErr] s
      Except.ok (error.NewErrorResponse libs c cusErr, s1)
  | Except.ok req =>
    match g.overlapService with
    | none => Except.error Panic.nilPointerDereference
    | some overlapService =>
      match overlapService.Check req.Range1 req.Range2 s with
      | Except.error p => Except.error p
      | Except.ok (isOverlap, s1) =>
        match g.appLogger with
        | none => Except.error Panic.nilPointerDereference
        | some appLogger =>
          let s2 := appLogger.Infof "isOverlap the time range %v" [LogArg.bool isOverlap] s1
          Except.ok (NewSuccess c (Value.bool isOverlap), s2)

/-- Go `gin.HandlerFunc`, run against the package-level variables as they
are when the request is served. -/
abbrev HandlerFunc (σ : Type) := Globals σ → Context → σ → Except Panic (Context × σ)

/-- One entry of a gin route table. -/
structure RouteInfo (σ : Type) where
  Method : String
  Path : String
  Handler : HandlerFunc σ

/-- The part of `gin.Engine` the program uses: the table of static routes
and the `HandleMethodNotAllowed` switch.  Middleware and the redirects of
near-miss paths are left out. -/
structure Engine (σ : Type) where
  routes : List (RouteInfo σ)
  HandleMethodNotAllowed : Bool

/-- Go `gin.New`. -/
def gin.New {σ : Type} : Engine σ :=
  { routes := [], HandleMethodNotAllowed := false }

/-- Go `RouterGroup.POST` on the group of prefix `basePath`: gin panics when
the method and path already have handlers. -/
def Engine.POST {σ : Type} (g : Engine σ) (basePath relativePath : String)
    (handler : HandlerFunc σ) : Except Panic (Engine σ) :=
  let path := basePath ++ relativePath
  if g.routes.any (fun r => r.Method == "POST" && r.Path == path) then
    Except.error Panic.handlersAlreadyRegistered
  else
    Except.ok { g with routes := g.routes ++ [{ Method := "POST", Path := path, Handler := handler }] }

/-- Go `api.RegisterEndpoint`: assign the two package-level variables, then
register `CheckOverlap` for `POST /api/v1/overlap-check`.  The result is the
variables after the call and the engine, or the panic of the registration. -/
def RegisterEndpoint {σ : Type} (libs : Libs) (g : Engine σ) (os : Option (OverlapService σ))
    (logger : Option (Logger σ)) (_vars : Globals σ) : Globals σ × Except Panic (Engine σ) :=
  let vars : Globals σ := { overlapService := os, appLogger := logger }
  (vars, g.POST "/api/v1" "/overlap-check" (CheckOverlap libs))

/-- Go `gin.Engine.ServeHTTP` on static routes: run the handler registered
for the method and path; without one, answer 405 when
`HandleMethodNotAllowed` is set and another method has the path, and 404
otherwise. -/
def Engine.ServeHTTP {σ : Type} (g : Engine σ) (vars : Globals σ) (req : Request) (s : σ) :
    Except Panic (Context × σ) :=
  let c : Context := { Request := req, aborted := false, written := [] }
  match g.routes.find? (fun r => r.Method == req.Method && r.Path == req.Path) with
  | some r => r.Handler vars c s
  | none =>
    if g.HandleMethodNotAllowed && g.routes.any (fun r => r.Path == req.Path) then
      Except.ok ({ c with written := [(405, ResponseBody.text "405 method not allowed")] }, s)
    else
      Except.ok ({ c with written := [(404, ResponseBody.text "404 page not found")] }, s)

/-! ## Mocks of the handler tests -/

/-- What the mocks of the handler tests record: the logger calls and the
arguments of every `Check` call. -/
structure TestWorld where
  log : List LogCall
  checks : List (DateRange × DateRange)
deriving DecidableEq

/-- The `MockLogger` of the handler tests, recording each call. -/
def MockLogger : Logger TestWorld where
  Info args w := { w with log := w.log ++ [LogCall.Info args] }
  Infof format args w := { w with log := w.log ++ [LogCall.Infof format args] }
  Error args w := { w with log := w.log ++ [LogCall.Error args] }
  Errorf format args w := { w with log := w.log ++ [LogCall.Errorf format args] }
  Warn args w := { w with log := w.log ++ [LogCall.Warn args] }
  Warnf format args w := { w with log := w.log ++ [LogCall.Warnf format args] }
  Debug args w := { w with log := w.log ++ [LogCall.Debug args] }
  Debugf format args w := { w with log := w.log ++ [LogCall.Debugf format args] }

/-- The `MockOverlapService` of the handler tests, set up to return `ret`:
it records the arguments of each call. -/
def MockOverlapService (ret : Bool) : OverlapService TestWorld where
  Check r1 r2 w := Except.ok (ret, { w with checks := w.checks ++ [(r1, r2)] })

/-- The request of `TestCheckOverlap_ValidOverlappingRanges`. -/
def overlappingRequest : OverlapRequest :=
  { Range1 := createDateRange (july1 10 0 0) (july1 12 0 0)
    Range2 := createDateRange (july1 11 0 0) (july1 13 0 0) }

/-- Libraries whose binder decodes every body into `overlappingRequest`. -/
def bindingLibs : Libs where
  ShouldBindJSON _ := Except.ok overlappingRequest
  StatusText _ := ""

/-- Libraries whose binder rejects every body with the error text
`binding failed`. -/
def rejectingLibs : Libs where
  ShouldBindJSON _ := Except.error "binding failed"
  StatusText _ := ""

/-- Libraries whose binder rejects every body with an error text that
quotes the body. -/
def echoingLibs : Libs where
  ShouldBindJSON body := Except.error ("cannot bind " ++ body)
  StatusText _ := ""

/-- The JSON body of `overlappingRequest`. -/
def overlappingBody : String :=
  "\x7b\"range1\":\x7b\"start\":\"2025-07-01T10:00:00Z\",\"end\":\"2025-07-01T12:00:00Z\"\x7d," ++
  "\"range2\":\x7b\"start\":\"2025-07-01T11:00:00Z\",\"end\":\"2025-07-01T13:00:00Z\"\x7d\x7d"

/-- The context of a `POST /api/v1/overlap-check` request with body `body`,
before any handler has run. -/
def postContext (body : String) : Context :=
  { Request := { Method := "POST", Path := "/api/v1/overlap-check", Body := body }
    aborted := false
    written := [] }

/-- The state a call leaves behind, if it returned. -/
def stateAfter {α σ : Type} (r : Except Panic (α × σ)) : Option σ :=
  match r with
  | Except.ok (_, s) => some s
  | Except.error _ => none

/-- The context a handler leaves behind, if it returned. -/
def contextAfter {σ : Type} (r : Except Panic (Context × σ)) : Option Context :=
  match r with
  | Except.ok (c, _) => some c
  | Except.error _ => none

/-- The error envelope of the last write of a context. -/
def Context.lastError (c : Context) : Option ErrorResponse :=
  match c.written.getLast? with
  | some (_, ResponseBody.error res) => some res
  | _ => none

/-- The HTTP status of the last write of a context. -/
def Context.lastStatus (c : Context) : Option Int :=
  c.written.getLast?.map Prod.fst

/-! ## Order facts about `Time` -/

theorem Time.lt_iff_instant (t u : Time) : t < u ↔ t.instant < u.instant := Iff.rfl

theorem Time.le_iff_instant (t u : Time) : t ≤ u ↔ t.instant ≤ u.instant := Iff.rfl

/-- `Before` decides the order of instants. -/
theorem Time.Before_iff_lt (t u : Time) : t.Before u = true ↔ t < u := by
  rw [Time.lt_iff_instant]
  obtain ⟨ts, tn, ht⟩ := t
  obtain ⟨us, un, hu⟩ := u
  simp only [Time.Before, Time.instant, Bool.or_eq_true, Bool.and_eq_true, decide_eq_true_eq]
  omega

/-- What `Check` returns on a service whose logger is not nil. -/
theorem returned_Check {σ : Type} (l : Logger σ) (r1 r2 : DateRange) (s : σ) :
    returned ((New (some l)).Check r1 r2 s)
      = some (r1.Start.Before r2.End && r2.Start.Before r1.End) := rfl

theorem returned_Check_true_iff {σ : Type} (l : Logger σ) (r1 r2 : DateRange) (s : σ) :
    returned ((New (some l)).Check r1 r2 s) = some true
      ↔ r1.Start < r2.End ∧ r2.Start < r1.End := by
  rw [returned_Check, Option.some.injEq, Bool.and_eq_true, Time.Before_iff_lt,
    Time.Before_iff_lt]

theorem returned_Check_false_iff {σ : Type} (l : Logger σ) (r1 r2 : DateRange) (s : σ) :
    returned ((New (some l)).Check r1 r2 s) = some false
      ↔ ¬ (r1.Start < r2.End ∧ r2.Start < r1.End) := by
  rw [← returned_Check_true_iff l r1 r2 s, returned_Check, Option.some.injEq,
    Option.some.injEq, Bool.not_eq_true]

theorem returned_Check_decide {σ : Type} (l : Logger σ) (r1 r2 : DateRange) (s : σ) :
    returned ((New (some l)).Check r1 r2 s)
      = some (decide (r1.Start < r2.End ∧ r2.Start < r1.End)) := by
  by_cases h : r1.Start < r2.End ∧ r2.Start < r1.End
  · rw [decide_eq_true h]
    exact (returned_Check_true_iff l r1 r2 s).mpr h
  · rw [decide_eq_false h]
    exact (returned_Check_false_iff l r1 r2 s).mpr h

/-- Once `once` has run, further calls of `SetCustomErrorMapping` change
nothing. -/
theorem SetCustomErrorMapping_foldl_of_once (later : List (GoMap Code StatusCode))
    (v : response.Vars) (h : v.once = true) :
    later.foldl (fun acc m => SetCustomErrorMapping m acc) v = v := by
  induction later with
  | nil => rfl
  | cons m rest ih =>
    have hstep : SetCustomErrorMapping m v = v := by
      simp only [SetCustomErrorMapping, h, if_true]
    rw [List.foldl_cons, hstep]
    exact ih

/-- Reading a map built from a list: the first entry with the key wins. -/
theorem GoMap.get?_make_cons {κ ν : Type} [DecidableEq κ] (k k' : κ) (v : ν)
    (rest : List (κ × ν)) :
    (GoMap.make ((k, v) :: rest)).get? k'
      = if k = k' then some v else (GoMap.make rest).get? k' := by
  by_cases h : k = k'
  · simp [GoMap.get?, List.find?_cons, h]
  · simp [GoMap.get?, List.find?_cons, h]

theorem GoMap.get?_make_nil {κ ν : Type} [DecidableEq κ] (k' : κ) :
    (GoMap.make ([] : List (κ × ν))).get? k' = none := rfl

/-- The last write of a context that has just been written to. -/
theorem Context.lastStatus_AbortWithStatusJSON (c : Context) (code : Int)
    (obj : ResponseBody) : (c.AbortWithStatusJSON code obj).lastStatus = some code := by
  simp [Context.lastStatus, Context.AbortWithStatusJSON]

theorem Context.lastError_AbortWithStatusJSON (c : Context) (code : Int)
    (res : ErrorResponse) :
    (c.AbortWithStatusJSON code (ResponseBody.error res)).lastError = some res := by
  simp [Context.lastError, Context.AbortWithStatusJSON]

/-! ## The overlap predicate -/

/-- C1: on every pair of ranges, with no assumption that a start precedes its
end, `Check` returns true exactly when `r1.Start < r2.End` and
`r2.Start < r1.End`, both strict, and returns false exactly when that fails. -/
theorem Check_iff_strict {σ : Type} (l : Logger σ) (r1 r2 : DateRange) (s : σ) :
    (returned ((New (some l)).Check r1 r2 s) = some true
        ↔ r1.Start < r2.End ∧ r2.Start < r1.End)
    ∧ (returned ((New (some l)).Check r1 r2 s) = some false
        ↔ ¬ (r1.Start < r2.End ∧ r2.Start < r1.End)) :=
  ⟨returned_Check_true_iff l r1 r2 s, returned_Check_false_iff l r1 r2 s⟩

/-- C2: `Check` is commutative: on any service, for all ranges `a` and `b`,
degenerate and inverted ones included, `Check(a, b)` and `Check(b, a)` return
the same. -/
theorem Check_comm {σ : Type} (os : overlapService σ) (a b : DateRange) (s s' : σ) :
    returned (os.Check a b s) = returned (os.Check b a s') := by
  obtain ⟨lg⟩ := os
  cases lg with
  | none => rfl
  | some l =>
    show returned ((New (some l)).Check a b s) = returned ((New (some l)).Check b a s')
    rw [returned_Check, returned_Check, Bool.and_comm]

/-- C3: touching ranges do not overlap: when `a.End = b.Start`, both
`Check(a, b)` and `Check(b, a)` return false. -/
theorem Check_touching {σ : Type} (l : Logger σ) (a b : DateRange) (s : σ)
    (h : a.End = b.Start) :
    returned ((New (some l)).Check a b s) = some false
    ∧ returned ((New (some l)).Check b a s) = some false := by
  constructor
  · rw [returned_Check_false_iff, h]
    exact fun hc => lt_irrefl _ hc.2
  · rw [returned_Check_false_iff, h]
    exact fun hc => lt_irrefl _ hc.1

theorem Check_touching_witness :
    (createDateRange (july1 10 0 0) (july1 11 0 0)).End
        = (createDateRange (july1 11 0 0) (july1 12 0 0)).Start
    ∧ (returned ((New (some recordingLogger)).Check
          (createDateRange (july1 10 0 0) (july1 11 0 0))
          (createDateRange (july1 11 0 0) (july1 12 0 0)) []) = some false
      ∧ returned ((New (some recordingLogger)).Check
          (createDateRange (july1 11 0 0) (july1 12 0 0))
          (createDateRange (july1 10 0 0) (july1 11 0 0)) []) = some false) :=
  ⟨by decide, Check_touching recordingLogger _ _ [] (by decide)⟩

/-- C4: `Check` is reflexive on non-degenerate ranges: when
`r.Start < r.End`, `Check(r, r)` returns true. -/
theorem Check_refl {σ : Type} (l : Logger σ) (r : DateRange) (s : σ)
    (h : r.Start < r.End) :
    returned ((New (some l)).Check r r s) = some true :=
  (returned_Check_true_iff l r r s).mpr ⟨h, h⟩

theorem Check_refl_witness :
    (createDateRange (july1 10 0 0) (july1 12 0 0)).Start
        < (createDateRange (july1 10 0 0) (july1 12 0 0)).End
    ∧ returned ((New (some recordingLogger)).Check
          (createDateRange (july1 10 0 0) (july1 12 0 0))
          (createDateRange (july1 10 0 0) (july1 12 0 0)) []) = some true :=
  ⟨by decide, Check_refl recordingLogger _ [] (by decide)⟩

/-- C5 as stated fails: the zero-duration range at 10:30 overlaps the range
10:00 to 11:00, in both argument orders. -/
theorem Check_zero_duration_inside :
    (createDateRange (july1 10 30 0) (july1 10 30 0)).Start
        = (createDateRange (july1 10 30 0) (july1 10 30 0)).End
    ∧ returned ((New (some recordingLogger)).Check
          (createDateRange (july1 10 30 0) (july1 10 30 0))
          (createDateRange (july1 10 0 0) (july1 11 0 0)) []) = some true
    ∧ returned ((New (some recordingLogger)).Check
          (createDateRange (july1 10 0 0) (july1 11 0 0))
          (createDateRange (july1 10 30 0) (july1 10 30 0)) []) = some true := by
  decide

/-- C5, amended: a zero-duration range `r` overlaps a range `s`, in either
argument order, exactly when `s` holds the instant of `r` strictly inside it:
when `r.Start = r.End`, both `Check(r, s)` and `Check(s, r)` return true if
`s.Start < r.Start < s.End` and false otherwise. -/
theorem Check_zero_duration {σ : Type} (l : Logger σ) (r s : DateRange) (st : σ)
    (hr : r.Start = r.End) :
    returned ((New (some l)).Check r s st)
        = some (decide (s.Start < r.Start ∧ r.Start < s.End))
    ∧ returned ((New (some l)).Check s r st)
        = some (decide (s.Start < r.Start ∧ r.Start < s.End)) := by
  constructor
  · rw [returned_Check_decide, ← hr]
    exact congrArg some (decide_eq_decide.mpr and_comm)
  · rw [returned_Check_decide, ← hr]

theorem Check_zero_duration_witness :
    (createDateRange (july1 11 30 0) (july1 11 30 0)).Start
        = (createDateRange (july1 11 30 0) (july1 11 30 0)).End
    ∧ (returned ((New (some recordingLogger)).Check
          (createDateRange (july1 11 30 0) (july1 11 30 0))
          (createDateRange (july1 11 0 0) (july1 13 0 0)) [])
        = some (decide ((createDateRange (july1 11 0 0) (july1 13 0 0)).Start
              < (createDateRange (july1 11 30 0) (july1 11 30 0)).Start
            ∧ (createDateRange (july1 11 30 0) (july1 11 30 0)).Start
              < (createDateRange (july1 11 0 0) (july1 13 0 0)).End))
      ∧ returned ((New (some recordingLogger)).Check
          (createDateRange (july1 11 0 0) (july1 13 0 0))
          (createDateRange (july1 11 30 0) (july1 11 30 0)) [])
        = some (decide ((createDateRange (july1 11 0 0) (july1 13 0 0)).Start
              < (createDateRange (july1 11 30 0) (july1 11 30 0)).Start
            ∧ (createDateRange (july1 11 30 0) (july1 11 30 0)).Start
              < (createDateRange (july1 11 0 0) (july1 13 0 0)).End))) :=
  ⟨by decide, Check_zero_duration recordingLogger _ _ [] (by decide)⟩

/-- C6 as stated fails: the inverted range from 11:00 back to 10:30 overlaps
the range 10:00 to 12:00, in both argument orders. -/
theorem Check_inverted_inside :
    (createDateRange (july1 11 0 0) (july1 10 30 0)).Start
        > (createDateRange (july1 11 0 0) (july1 10 30 0)).End
    ∧ returned ((New (some recordingLogger)).Check
          (createDateRange (july1 11 0 0) (july1 10 30 0))
          (createDateRange (july1 10 0 0) (july1 12 0 0)) []) = some true
    ∧ returned ((New (some recordingLogger)).Check
          (createDateRange (july1 10 0 0) (july1 12 0 0))
          (createDateRange (july1 11 0 0) (july1 10 30 0)) []) = some true := by
  decide

/-- C6, amended: an inverted range `r` overlaps a range `s`, in either
argument order, exactly when `s` reaches strictly beyond both endpoints of
`r` (`s.Start < r.End` and `r.Start < s.End`); so it never overlaps itself. -/
theorem Check_inverted {σ : Type} (l : Logger σ) (r s : DateRange) (st : σ)
    (hr : r.Start > r.End) :
    returned ((New (some l)).Check r s st)
        = some (decide (s.Start < r.End ∧ r.Start < s.End))
    ∧ returned ((New (some l)).Check s r st)
        = some (decide (s.Start < r.End ∧ r.Start < s.End))
    ∧ returned ((New (some l)).Check r r st) = some false := by
  refine ⟨?_, ?_, ?_⟩
  · rw [returned_Check_decide]
    exact congrArg some (decide_eq_decide.mpr and_comm)
  · rw [returned_Check_decide]
  · rw [returned_Check_false_iff]
    exact fun hc => lt_asymm hr hc.1

theorem Check_inverted_witness :
    (createDateRange (july1 11 0 0) (july1 10 30 0)).Start
        > (createDateRange (july1 11 0 0) (july1 10 30 0)).End
    ∧ (returned ((New (some recordingLogger)).Check
          (createDateRange (july1 11 0 0) (july1 10 30 0))
          (createDateRange (july1 10 45 0) (july1 12 0 0)) [])
        = some (decide ((createDateRange (july1 10 45 0) (july1 12 0 0)).Start
              < (createDateRange (july1 11 0 0) (july1 10 30 0)).End
            ∧ (createDateRange (july1 11 0 0) (july1 10 30 0)).Start
              < (createDateRange (july1 10 45 0) (july1 12 0 0)).End))
      ∧ returned ((New (some recordingLogger)).Check
          (createDateRange (july1 10 45 0) (july1 12 0 0))
          (createDateRange (july1 11 0 0) (july1 10 30 0)) [])
        = some (decide ((createDateRange (july1 10 45 0) (july1 12 0 0)).Start
              < (createDateRange (july1 11 0 0) (july1 10 30 0)).End
            ∧ (createDateRange (july1 11 0 0) (july1 10 30 0)).Start
              < (createDateRange (july1 10 45 0) (july1 12 0 0)).End))
      ∧ returned ((New (some recordingLogger)).Check
          (createDateRange (july1 11 0 0) (july1 10 30 0))
          (createDateRange (july1 11 0 0) (july1 10 30 0)) []) = some false) :=
  ⟨by decide, Check_inverted recordingLogger _ _ [] (by decide)⟩

/-- C7: containment implies overlap in either argument order: when
`a.Start ≤ b.Start`, `b.End ≤ a.End` and `b.Start < b.End`, both `Check(a, b)`
and `Check(b, a)` return true. -/
theorem Check_containment {σ : Type} (l : Logger σ) (a b : DateRange) (s : σ)
    (hStart : a.Start ≤ b.Start) (hEnd : b.End ≤ a.End) (hb : b.Start < b.End) :
    returned ((New (some l)).Check a b s) = some true
    ∧ returned ((New (some l)).Check b a s) = some true := by
  have h1 : a.Start < b.End := lt_of_le_of_lt hStart hb
  have h2 : b.Start < a.End := lt_of_lt_of_le hb hEnd
  exact ⟨(returned_Check_true_iff l a b s).mpr ⟨h1, h2⟩,
    (returned_Check_true_iff l b a s).mpr ⟨h2, h1⟩⟩

theorem Check_containment_witness :
    (createDateRange (july1 9 0 0) (july1 15 0 0)).Start
        ≤ (createDateRange (july1 10 0 0) (july1 12 0 0)).Start
    ∧ (createDateRange (july1 10 0 0) (july1 12 0 0)).End
        ≤ (createDateRange (july1 9 0 0) (july1 15 0 0)).End
    ∧ (createDateRange (july1 10 0 0) (july1 12 0 0)).Start
        < (createDateRange (july1 10 0 0) (july1 12 0 0)).End
    ∧ (returned ((New (some recordingLogger)).Check
          (createDateRange (july1 9 0 0) (july1 15 0 0))
          (createDateRange (july1 10 0 0) (july1 12 0 0)) []) = some true
      ∧ returned ((New (some recordingLogger)).Check
          (createDateRange (july1 10 0 0) (july1 12 0 0))
          (createDateRange (july1 9 0 0) (july1 15 0 0)) []) = some true) :=
  ⟨by decide, by decide, by decide,
    Check_containment recordingLogger _ _ [] (by decide) (by decide) (by decide)⟩

/-- C8: on well-formed ranges `Check` is non-empty intersection of the
half-open intervals: when `a.Start < a.End` and `b.Start < b.End`,
`Check(a, b)` returns true exactly when some instant `t` has
`a.Start ≤ t < a.End` and `b.Start ≤ t < b.End`, and exactly when
`max a.Start b.Start < min a.End b.End`. -/
theorem Check_iff_intersect {σ : Type} (l : Logger σ) (a b : DateRange) (s : σ)
    (ha : a.Start < a.End) (hb : b.Start < b.End) :
    (returned ((New (some l)).Check a b s) = some true
        ↔ ∃ t : Time, (a.Start ≤ t ∧ t < a.End) ∧ (b.Start ≤ t ∧ t < b.End))
    ∧ (returned ((New (some l)).Check a b s) = some true
        ↔ max a.Start b.Start < min a.End b.End) := by
  rw [returned_Check_true_iff]
  constructor
  · constructor
    · rintro ⟨h1, h2⟩
      exact ⟨max a.Start b.Start,
        ⟨le_max_left _ _, max_lt ha h2⟩, ⟨le_max_right _ _, max_lt h1 hb⟩⟩
    · rintro ⟨t, ⟨hat, hta⟩, ⟨hbt, htb⟩⟩
      exact ⟨lt_of_le_of_lt hat htb, lt_of_le_of_lt hbt hta⟩
  · constructor
    · rintro ⟨h1, h2⟩
      exact max_lt (lt_min ha h1) (lt_min h2 hb)
    · intro h
      rw [max_lt_iff, lt_min_iff, lt_min_iff] at h
      exact ⟨h.1.2, h.2.1⟩

theorem Check_iff_intersect_witness :
    (createDateRange (july1 10 0 0) (july1 11 1 0)).Start
        < (createDateRange (july1 10 0 0) (july1 11 1 0)).End
    ∧ (createDateRange (july1 11 0 0) (july1 12 0 0)).Start
        < (createDateRange (july1 11 0 0) (july1 12 0 0)).End
    ∧ ((returned ((New (some recordingLogger)).Check
            (createDateRange (july1 10 0 0) (july1 11 1 0))
            (createDateRange (july1 11 0 0) (july1 12 0 0)) []) = some true
          ↔ ∃ t : Time,
              ((createDateRange (july1 10 0 0) (july1 11 1 0)).Start ≤ t
                ∧ t < (createDateRange (july1 10 0 0) (july1 11 1 0)).End)
              ∧ ((createDateRange (july1 11 0 0) (july1 12 0 0)).Start ≤ t
                ∧ t < (createDateRange (july1 11 0 0) (july1 12 0 0)).End))
      ∧ (returned ((New (some recordingLogger)).Check
            (createDateRange (july1 10 0 0) (july1 11 1 0))
            (createDateRange (july1 11 0 0) (july1 12 0 0)) []) = some true
          ↔ max (createDateRange (july1 10 0 0) (july1 11 1 0)).Start
                (createDateRange (july1 11 0 0) (july1 12 0 0)).Start
              < min (createDateRange (july1 10 0 0) (july1 11 1 0)).End
                (createDateRange (july1 11 0 0) (july1 12 0 0)).End)) :=
  ⟨by decide, by decide, Check_iff_intersect recordingLogger _ _ [] (by decide) (by decide)⟩

/-- C9: for a zero-duration range at the instant `t` and any range `s`,
`Check({t, t}, s)` returns true exactly when `s.Start < t < s.End` and false
otherwise; in particular it returns false when `t` is `s.Start` or `s.End`. -/
theorem Check_instant {σ : Type} (l : Logger σ) (t : Time) (s : DateRange) (st : σ) :
    (returned ((New (some l)).Check { Start := t, End := t } s st) = some true
        ↔ s.Start < t ∧ t < s.End)
    ∧ (returned ((New (some l)).Check { Start := t, End := t } s st) = some false
        ↔ ¬ (s.Start < t ∧ t < s.End))
    ∧ returned ((New (some l)).Check { Start := s.Start, End := s.Start } s st) = some false
    ∧ returned ((New (some l)).Check { Start := s.End, End := s.End } s st) = some false := by
  refine ⟨?_, ?_, ?_, ?_⟩
  · rw [returned_Check_true_iff]
    exact and_comm
  · rw [returned_Check_false_iff]
    exact not_congr and_comm
  · rw [returned_Check_false_iff]
    exact fun hc => lt_irrefl _ hc.2
  · rw [returned_Check_false_iff]
    exact fun hc => lt_irrefl _ hc.1

/-- C10 as stated fails: on a service built by `New` with a nil logger,
`Check` panics on the overlapping pair 10:00 to 12:00 and 11:00 to 13:00 and
returns no boolean. -/
theorem Check_nil_logger_panics :
    (New (none : Option (Logger (List LogCall)))).Check
        (createDateRange (july1 10 0 0) (july1 12 0 0))
        (createDateRange (july1 11 0 0) (july1 13 0 0)) []
      = Except.error Panic.nilPointerDereference
    ∧ returned ((New (none : Option (Logger (List LogCall)))).Check
        (createDateRange (july1 10 0 0) (july1 12 0 0))
        (createDateRange (july1 11 0 0) (july1 13 0 0)) []) = none :=
  ⟨rfl, rfl⟩

/-- C10, amended: no pair of ranges makes `Check` fail.  On every service
`Check` returns a boolean exactly when the service's logger is not nil, and
panics with a nil dereference exactly when it is nil, whatever the ranges and
the order of each start and end; so a call returns on one pair exactly when
it returns on any other. -/
theorem Check_fails_only_on_nil_logger {σ : Type} (os : overlapService σ)
    (r1 r2 r1' r2' : DateRange) (s s' : σ) :
    ((∃ b : Bool, ∃ s1 : σ, os.Check r1 r2 s = Except.ok (b, s1)) ↔ os.Logger.isSome = true)
    ∧ (os.Check r1 r2 s = Except.error Panic.nilPointerDereference
        ↔ os.Logger.isSome = false)
    ∧ ((∃ b : Bool, ∃ s1 : σ, os.Check r1 r2 s = Except.ok (b, s1))
        ↔ (∃ b : Bool, ∃ s1 : σ, os.Check r1' r2' s' = Except.ok (b, s1)))
    ∧ ∀ p : Panic, ∀ l : Logger σ, (New (some l)).Check r1 r2 s ≠ Except.error p := by
  obtain ⟨lg⟩ := os
  cases lg with
  | none =>
    refine ⟨?_, ?_, ?_, ?_⟩
    · simp [overlapService.Check]
    · simp [overlapService.Check]
    · simp [overlapService.Check]
    · intro p l h
      simp [New, overlapService.Check] at h
  | some l0 =>
    refine ⟨?_, ?_, ?_, ?_⟩
    · simp [overlapService.Check]
    · simp [overlapService.Check]
    · simp [overlapService.Check]
    · intro p l h
      simp [New, overlapService.Check] at h

/-! ## The handler and the response envelopes -/

/-- C11 as stated fails: `Check` on a service with a recording logger leaves
one `Info` entry in a trace that was empty before the call. -/
theorem Check_changes_logger_state :
    stateAfter ((New (some recordingLogger)).Check
        (createDateRange (july1 10 0 0) (july1 12 0 0))
        (createDateRange (july1 11 0 0) (july1 13 0 0)) [])
      = some [LogCall.Info [LogArg.str "Checking time range  with overlapservice"]]
    ∧ stateAfter ((New (some recordingLogger)).Check
        (createDateRange (july1 10 0 0) (july1 12 0 0))
        (createDateRange (july1 11 0 0) (july1 13 0 0)) []) ≠ some [] := by
  decide

/-- C11, amended: the only effect of `Check` is one call of `Logger.Info`
with a fixed message, the same for all ranges and outcomes; the outcome is
logged by `CheckOverlap` alone, through `Infof` on the value `Check`
returned. -/
theorem Check_only_logs_fixed_Info {σ : Type} (libs : Libs) (l lg : Logger σ)
    (r1 r2 : DateRange) (c : Context) (req : OverlapRequest) (s : σ)
    (hbind : libs.ShouldBindJSON c.Request.Body = Except.ok req) :
    stateAfter ((New (some l)).Check r1 r2 s)
      = some (l.Info [LogArg.str "Checking time range  with overlapservice"] s)
    ∧ ∃ b : Bool, returned ((New (some l)).Check req.Range1 req.Range2 s) = some b
      ∧ stateAfter (CheckOverlap libs
            { overlapService := some (New (some l)).toOverlapService, appLogger := some lg } c s)
          = some (lg.Infof "isOverlap the time range %v" [LogArg.bool b]
              (l.Info [LogArg.str "Checking time range  with overlapservice"] s)) := by
  refine ⟨rfl, req.Range1.Start.Before req.Range2.End && req.Range2.Start.Before req.Range1.End,
    rfl, ?_⟩
  simp only [CheckOverlap, hbind, overlapService.toOverlapService, overlapService.Check, New,
    stateAfter]

theorem Check_only_logs_fixed_Info_witness :
    bindingLibs.ShouldBindJSON (postContext overlappingBody).Request.Body
        = Except.ok overlappingRequest
    ∧ (stateAfter ((New (some recordingLogger)).Check
          (createDateRange (july1 10 0 0) (july1 11 0 0))
          (createDateRange (july1 12 0 0) (july1 13 0 0)) [])
        = some (recordingLogger.Info
            [LogArg.str "Checking time range  with overlapservice"] [])
      ∧ ∃ b : Bool,
          returned ((New (some recordingLogger)).Check
            overlappingRequest.Range1 overlappingRequest.Range2 []) = some b
          ∧ stateAfter (CheckOverlap bindingLibs
                { overlapService := some (New (some recordingLogger)).toOverlapService,
                  appLogger := some recordingLogger }
                (postContext overlappingBody) [])
              = some (recordingLogger.Infof "isOverlap the time range %v" [LogArg.bool b]
                  (recordingLogger.Info
                    [LogArg.str "Checking time range  with overlapservice"] []))) :=
  ⟨rfl, Check_only_logs_fixed_Info bindingLibs recordingLogger recordingLogger _ _
    (postContext overlappingBody) overlappingRequest [] rfl⟩

/-- C12: when the body decodes into `req` and the registered service returns
`b` from `Check(req.Range1, req.Range2)`, `CheckOverlap` logs `b` through
`Infof` and writes, under HTTP status 200, the success envelope with
`IsSuccess = true`, `StatusCode = 200` and `Data = b`. -/
theorem CheckOverlap_success {σ : Type} (libs : Libs) (svc : OverlapService σ)
    (lg : Logger σ) (c : Context) (req : OverlapRequest) (b : Bool) (s s1 : σ)
    (hbind : libs.ShouldBindJSON c.Request.Body = Except.ok req)
    (hcheck : svc.Check req.Range1 req.Range2 s = Except.ok (b, s1)) :
    CheckOverlap libs { overlapService := some svc, appLogger := some lg } c s
      = Except.ok
          ({ Request := c.Request
             aborted := true
             written := c.written ++
               [(200, ResponseBody.success
                  { IsSuccess := true, StatusCode := 200, Data := Value.bool b })] },
           lg.Infof "isOverlap the time range %v" [LogArg.bool b] s1) := by
  simp only [CheckOverlap, hbind, hcheck]
  rfl

theorem CheckOverlap_success_witness :
    bindingLibs.ShouldBindJSON (postContext overlappingBody).Request.Body
        = Except.ok overlappingRequest
    ∧ (MockOverlapService true).Check overlappingRequest.Range1 overlappingRequest.Range2
          { log := [], checks := [] }
        = Except.ok (true,
            { log := []
              checks := [(overlappingRequest.Range1, overlappingRequest.Range2)] })
    ∧ CheckOverlap bindingLibs
          { overlapService := some (MockOverlapService true), appLogger := some MockLogger }
          (postContext overlappingBody) { log := [], checks := [] }
        = Except.ok
            ({ Request := (postContext overlappingBody).Request
               aborted := true
               written := (postContext overlappingBody).written ++
                 [(200, ResponseBody.success
                    { IsSuccess := true, StatusCode := 200, Data := Value.bool true })] },
             MockLogger.Infof "isOverlap the time range %v" [LogArg.bool true]
               { log := []
                 checks := [(overlappingRequest.Range1, overlappingRequest.Range2)] }) :=
  ⟨rfl, rfl, CheckOverlap_success bindingLibs (MockOverlapService true) MockLogger
    (postContext overlappingBody) overlappingRequest true _ _ rfl rfl⟩

/-- C13: when the body fails to decode, `CheckOverlap` writes, under HTTP
status 400, an error envelope with `IsSuccess = false` and
`StatusCode = 400`, and its only other effect is one `Errorf` call: the
outcome is the same for every registered service, nil included, so `Check`
is not invoked. -/
theorem CheckOverlap_decode_failure {σ : Type} (libs : Libs)
    (svc : Option (OverlapService σ)) (lg : Logger σ) (c : Context) (msg : String) (s : σ)
    (hbind : libs.ShouldBindJSON c.Request.Body = Except.error msg) :
    ∃ err : response.Error,
      CheckOverlap libs { overlapService := svc, appLogger := some lg } c s
        = Except.ok
            ({ Request := c.Request
               aborted := true
               written := c.written ++
                 [(400, ResponseBody.error
                    { IsSuccess := false, StatusCode := 400, Error := err })] },
             lg.Errorf "Unable to bind with json body :%v"
               [LogArg.err (customerror.NewCustomError error.BadRequest msg [])] s) := by
  refine ⟨{ Message := "Invalid Request", Errors := GoMap.make [], Data := Value.nil }, ?_⟩
  simp only [CheckOverlap, hbind]
  rfl

theorem CheckOverlap_decode_failure_witness :
    rejectingLibs.ShouldBindJSON (postContext "\x7b\x7d").Request.Body = Except.error "binding failed"
    ∧ ∃ err : response.Error,
      CheckOverlap rejectingLibs
          { overlapService := some (MockOverlapService true), appLogger := some MockLogger }
          (postContext "\x7b\x7d") { log := [], checks := [] }
        = Except.ok
            ({ Request := (postContext "\x7b\x7d").Request
               aborted := true
               written := (postContext "\x7b\x7d").written ++
                 [(400, ResponseBody.error
                    { IsSuccess := false, StatusCode := 400, Error := err })] },
             MockLogger.Errorf "Unable to bind with json body :%v"
               [LogArg.err (customerror.NewCustomError error.BadRequest "binding failed" [])]
               { log := [], checks := [] }) :=
  ⟨rfl, CheckOverlap_decode_failure rejectingLibs (some (MockOverlapService true)) MockLogger
    (postContext "\x7b\x7d") "binding failed" { log := [], checks := [] } rfl⟩

/-- C15: on a fresh engine `RegisterEndpoint` registers one route, `POST
/api/v1/overlap-check`; a request to that path with any other method is
answered by the router with 404, or 405 under `HandleMethodNotAllowed`, and
leaves the state untouched, so neither `Check` nor a logger method runs. -/
theorem other_methods_not_routed {σ : Type} (libs : Libs) (os : Option (OverlapService σ))
    (logger : Option (Logger σ)) (vars : Globals σ) (flag : Bool) (method body : String)
    (s : σ) (h : method ≠ "POST") :
    ∃ g : Engine σ,
      (RegisterEndpoint libs { routes := [], HandleMethodNotAllowed := flag } os logger vars).2
        = Except.ok g
      ∧ g.routes.map (fun r => (r.Method, r.Path)) = [("POST", "/api/v1/overlap-check")]
      ∧ g.ServeHTTP
          (RegisterEndpoint libs { routes := [], HandleMethodNotAllowed := flag } os logger vars).1
          { Method := method, Path := "/api/v1/overlap-check", Body := body } s
        = Except.ok
            ({ Request := { Method := method, Path := "/api/v1/overlap-check", Body := body }
               aborted := false
               written :=
                 [if flag then (405, ResponseBody.text "405 method not allowed")
                  else (404, ResponseBody.text "404 page not found")] },
             s) := by
  have hpath : ("/api/v1" : String) ++ "/overlap-check" = "/api/v1/overlap-check" := by decide
  have hm : (("POST" : String) == method) = false := by
    rw [beq_eq_false_iff_ne]
    exact fun hc => h hc.symm
  refine ⟨{ routes := [{ Method := "POST", Path := "/api/v1/overlap-check",
                         Handler := CheckOverlap libs }],
            HandleMethodNotAllowed := flag }, ?_, rfl, ?_⟩
  · simp [RegisterEndpoint, Engine.POST, hpath]
  · cases flag <;> simp [Engine.ServeHTTP, hm]

theorem other_methods_not_routed_witness :
    "GET" ≠ "POST"
    ∧ ∃ g : Engine TestWorld,
      (RegisterEndpoint bindingLibs { routes := [], HandleMethodNotAllowed := false }
          (some (MockOverlapService true)) (some MockLogger)
          { overlapService := none, appLogger := none }).2
        = Except.ok g
      ∧ g.routes.map (fun r => (r.Method, r.Path)) = [("POST", "/api/v1/overlap-check")]
      ∧ g.ServeHTTP
          (RegisterEndpoint bindingLibs { routes := [], HandleMethodNotAllowed := false }
            (some (MockOverlapService true)) (some MockLogger)
            { overlapService := none, appLogger := none }).1
          { Method := "GET", Path := "/api/v1/overlap-check", Body := "" }
          { log := [], checks := [] }
        = Except.ok
            ({ Request := { Method := "GET", Path := "/api/v1/overlap-check", Body := "" }
               aborted := false
               written :=
                 [if false = true then (405, ResponseBody.text "405 method not allowed")
                  else (404, ResponseBody.text "404 page not found")] },
             { log := [], checks := [] }) :=
  ⟨by decide, other_methods_not_routed bindingLibs (some (MockOverlapService true))
    (some MockLogger) { overlapService := none, appLogger := none } false "GET" ""
    { log := [], checks := [] } (by decide)⟩

/-- C17: for every data value, nil included, `NewSuccess` writes under HTTP
status 200 the envelope with `IsSuccess = true`, `StatusCode = 200` and the
data unchanged. -/
theorem NewSuccess_envelope (ctx : Context) (d : Value) :
    NewSuccess ctx d
      = { Request := ctx.Request
          aborted := true
          written := ctx.written ++
            [(200, ResponseBody.success { IsSuccess := true, StatusCode := 200, Data := d })] } :=
  rfl

/-- C18: without options `response.NewErrorResponse` writes under the HTTP
status `m[e.ErrorCode()]`, or 500 when the code is not a key of `m`, an
error envelope with `IsSuccess = false` and `StatusCode` equal to that
status. -/
theorem NewErrorResponse_status (libs : Libs) (ctx : Context) (e : CustomError)
    (m : GoMap Code StatusCode) :
    ∃ err : response.Error,
      (response.NewErrorResponse libs ctx e m []).written
        = ctx.written ++
            [((m.get? e.ErrorCode).getD 500,
              ResponseBody.error
                { IsSuccess := false
                  StatusCode := (m.get? e.ErrorCode).getD 500
                  Error := err })] := by
  refine ⟨{ Message :=
              if e.ErrorCode = constants.RequestInvalid then e.UserMessage
              else StatusCode.String libs ((m.get? e.ErrorCode).getD 500)
            Errors := e.ErrorMap
            Data := e.ErrorData }, ?_⟩
  cases hm : m.get? e.ErrorCode with
  | none =>
    simp only [response.NewErrorResponse, hm, generateErrorResponse,
      Context.AbortWithStatusJSON, List.foldl_nil, Option.getD_none, StatusCode.Code,
      http.StatusInternalServerError]
  | some st =>
    simp only [response.NewErrorResponse, hm, generateErrorResponse,
      Context.AbortWithStatusJSON, List.foldl_nil, Option.getD_some, StatusCode.Code]

/-- C19: without options `generateErrorResponse` sets `Error.Message` to
`e.UserMessage()` when the code of `e` is `REQUEST_INVALID` and to
`s.String()` otherwise; with any other code the response is the same
whatever the message of `e`. -/
theorem generateErrorResponse_message (libs : Libs) (ctx : Context) (e : CustomError)
    (s : StatusCode) (other : String) :
    (generateErrorResponse libs ctx e s []).lastError.map (fun res => res.Error.Message)
      = some (if e.ErrorCode = "REQUEST_INVALID" then e.UserMessage else s.String libs)
    ∧ (e.ErrorCode = "REQUEST_INVALID"
      ∨ generateErrorResponse libs ctx { e with message := other } s []
          = generateErrorResponse libs ctx e s []) := by
  constructor
  · simp [generateErrorResponse, Context.AbortWithStatusJSON, Context.lastError,
      constants.RequestInvalid]
  · by_cases hc : e.ErrorCode = "REQUEST_INVALID"
    · exact Or.inl hc
    · refine Or.inr ?_
      have hc' : ¬ e.code = "REQUEST_INVALID" := hc
      simp [generateErrorResponse, CustomError.ErrorCode, CustomError.ErrorData,
        CustomError.ErrorMap, constants.RequestInvalid, hc']

/-- C20: without options `response.NewErrorResponse` carries the payload of
the custom error through: `Error.Data = e.ErrorData()` and
`Error.Errors = e.ErrorMap()`, whatever the code. -/
theorem NewErrorResponse_payload (libs : Libs) (ctx : Context) (e : CustomError)
    (m : GoMap Code StatusCode) :
    (response.NewErrorResponse libs ctx e m []).lastError.map (fun res => res.Error.Data)
      = some e.ErrorData
    ∧ (response.NewErrorResponse libs ctx e m []).lastError.map (fun res => res.Error.Errors)
      = some e.ErrorMap := by
  constructor <;>
    simp [response.NewErrorResponse, generateErrorResponse, Context.AbortWithStatusJSON,
      Context.lastError]

/-! ## The global mapping, the default mapping and custom errors -/

/-- C21: `SetCustomErrorMapping` is first-writer-wins: after a first call
with `m1`, any number of later calls leave the global mapping equal to `m1`,
and `NewErrorResponseV2` resolves statuses through `m1`. -/
theorem SetCustomErrorMapping_first_wins (v : response.Vars) (m1 : GoMap Code StatusCode)
    (later : List (GoMap Code StatusCode)) (libs : Libs) (ctx : Context) (e : CustomError)
    (options : List response.Option) (h : v.once = false) :
    (later.foldl (fun acc m => SetCustomErrorMapping m acc)
        (SetCustomErrorMapping m1 v)).customCodeToHttpCodeMapping = m1
    ∧ NewErrorResponseV2 libs
        (later.foldl (fun acc m => SetCustomErrorMapping m acc) (SetCustomErrorMapping m1 v))
        ctx e options
      = response.NewErrorResponse libs ctx e m1 options := by
  have hfirst : SetCustomErrorMapping m1 v
      = { customCodeToHttpCodeMapping := m1, once := true } := by
    simp [SetCustomErrorMapping, h]
  rw [hfirst, SetCustomErrorMapping_foldl_of_once later _ rfl]
  exact ⟨rfl, rfl⟩

theorem SetCustomErrorMapping_first_wins_witness :
    response.initVars.once = false
    ∧ ((([GoMap.make [(constants.RequestInvalid, http.StatusUnauthorized)]]).foldl
          (fun acc m => SetCustomErrorMapping m acc)
          (SetCustomErrorMapping
            (GoMap.make [(constants.RequestInvalid, http.StatusBadRequest)])
            response.initVars)).customCodeToHttpCodeMapping
        = GoMap.make [(constants.RequestInvalid, http.StatusBadRequest)]
      ∧ NewErrorResponseV2 bindingLibs
          (([GoMap.make [(constants.RequestInvalid, http.StatusUnauthorized)]]).foldl
            (fun acc m => SetCustomErrorMapping m acc)
            (SetCustomErrorMapping
              (GoMap.make [(constants.RequestInvalid, http.StatusBadRequest)])
              response.initVars))
          (postContext "")
          (customerror.NewCustomError constants.RequestInvalid "Invalid request" []) []
        = response.NewErrorResponse bindingLibs (postContext "")
            (customerror.NewCustomError constants.RequestInvalid "Invalid request" [])
            (GoMap.make [(constants.RequestInvalid, http.StatusBadRequest)]) []) :=
  ⟨rfl, SetCustomErrorMapping_first_wins response.initVars _ _ bindingLibs (postContext "")
    _ [] rfl⟩

/-- C22: with the default mapping `error.NewErrorResponse` answers 400 for
`REQUEST_INVALID`, `NOT_FOUND`, `BAD_REQUEST` and `PARSE_INT_ERROR`, 403 for
`REQUEST_NOT_VALID`, 401 for `UNAUTHORIZED_ERROR` and 500 for every other
code; the message is the error's own for `REQUEST_INVALID` and the text
`Validation failed` for `REQUEST_NOT_VALID`. -/
theorem default_mapping_status (libs : Libs) (ctx : Context) (e : CustomError) :
    (error.NewErrorResponse libs ctx e).lastStatus
      = some
          (if e.ErrorCode = "REQUEST_INVALID" ∨ e.ErrorCode = "NOT_FOUND"
              ∨ e.ErrorCode = "BAD_REQUEST" ∨ e.ErrorCode = "PARSE_INT_ERROR" then 400
           else if e.ErrorCode = "REQUEST_NOT_VALID" then 403
           else if e.ErrorCode = "UNAUTHORIZED_ERROR" then 401
           else 500)
    ∧ (error.NewErrorResponse libs ctx { e with code := "REQUEST_INVALID" }).lastError.map
          (fun res => res.Error.Message)
        = some e.message
    ∧ (error.NewErrorResponse libs ctx { e with code := "REQUEST_NOT_VALID" }).lastError.map
          (fun res => res.Error.Message)
        = some "Validation failed" := by
  refine ⟨?_, ?_, ?_⟩
  · simp only [error.NewErrorResponse, response.NewErrorResponse, generateErrorResponse,
      Context.lastStatus_AbortWithStatusJSON, error.CustomCodeToHttpCodeMapping,
      GoMap.get?_make_cons, GoMap.get?_make_nil, error.RequestInvalid, error.NotFound,
      error.RequestNotValid, error.BadRequest, error.ParseIntError, error.StatusUnauthorized,
      http.StatusBadRequest, http.StatusForbidden, http.StatusUnauthorized,
      http.StatusInternalServerError, StatusCode.Code]
    generalize e.ErrorCode = code
    by_cases h1 : code = "REQUEST_INVALID"
    · subst h1; rfl
    by_cases h2 : code = "NOT_FOUND"
    · subst h2; rfl
    by_cases h3 : code = "REQUEST_NOT_VALID"
    · subst h3; rfl
    by_cases h4 : code = "BAD_REQUEST"
    · subst h4; rfl
    by_cases h5 : code = "PARSE_INT_ERROR"
    · subst h5; rfl
    by_cases h6 : code = "UNAUTHORIZED_ERROR"
    · subst h6; rfl
    simp only [if_neg (Ne.symm h1), if_neg (Ne.symm h2), if_neg (Ne.symm h3),
      if_neg (Ne.symm h4), if_neg (Ne.symm h5), if_neg (Ne.symm h6), h1, h2, h3, h4, h5, h6,
      or_self, if_false]
  · simp only [error.NewErrorResponse, response.NewErrorResponse, generateErrorResponse,
      Context.lastError_AbortWithStatusJSON]
    rfl
  · simp only [error.NewErrorResponse, response.NewErrorResponse, generateErrorResponse,
      Context.lastError_AbortWithStatusJSON]
    rfl

/-- C23: `NewCustomError(c, m)` with no options yields an error with
`Exists() = true`, `Retryable() = false`, `ShouldNotify() = true`,
`ErrorCode() = c`, the three message accessors equal to `m`, nil data, empty
`ErrorMap()` and `LoggingParams()`, and `Error()` returning
`"Code: " + c + " | " + m`. -/
theorem NewCustomError_defaults (c : Code) (m : String) :
    (customerror.NewCustomError c m []).Exists = true
    ∧ (customerror.NewCustomError c m []).Retryable = false
    ∧ (customerror.NewCustomError c m []).ShouldNotify = true
    ∧ (customerror.NewCustomError c m []).ErrorCode = c
    ∧ (customerror.NewCustomError c m []).ErrorMessage = m
    ∧ (customerror.NewCustomError c m []).ErrorString = m
    ∧ (customerror.NewCustomError c m []).UserMessage = m
    ∧ (customerror.NewCustomError c m []).ErrorData = Value.nil
    ∧ (customerror.NewCustomError c m []).ErrorMap.len = 0
    ∧ (customerror.NewCustomError c m []).LoggingParams.len = 0
    ∧ (customerror.NewCustomError c m []).Error = Except.ok ("Code: " ++ c ++ " | " ++ m) :=
  ⟨rfl, rfl, rfl, rfl, rfl, rfl, rfl, rfl, rfl, rfl, rfl⟩

/-- C24: `RequestInvalidError(m)` has code `REQUEST_INVALID`,
`Exists() = true`, `Retryable() = false`, `ShouldNotify() = true` and
`ErrorMessage() = m`; its options run last, so with `WithErrors(em)` and
`WithData(d)` it has `ErrorMap() = em` and `ErrorData() = d`. -/
theorem RequestInvalidError_options_last (m : String) (em : GoMap String String) (d : Value)
    (options : List (CustomError → CustomError)) :
    (customerror.RequestInvalidError m []).ErrorCode = "REQUEST_INVALID"
    ∧ (customerror.RequestInvalidError m []).Exists = true
    ∧ (customerror.RequestInvalidError m []).Retryable = false
    ∧ (customerror.RequestInvalidError m []).ShouldNotify = true
    ∧ (customerror.RequestInvalidError m []).ErrorMessage = m
    ∧ (customerror.RequestInvalidError m
          [customerror.WithErrors em, customerror.WithData d]).ErrorMap = em
    ∧ (customerror.RequestInvalidError m
          [customerror.WithErrors em, customerror.WithData d]).ErrorData = d
    ∧ customerror.RequestInvalidError m options
        = options.foldl (fun acc option => option acc) (customerror.RequestInvalidError m []) :=
  ⟨rfl, rfl, rfl, rfl, rfl, rfl, rfl, rfl⟩

/-- C25: the status-class predicates partition by hundreds: `Is2xx(s)` holds
exactly for `200 ≤ s ≤ 299`, `Is3xx(s)` for `300 ≤ s ≤ 399`, `Is4xx(s)` for
`400 ≤ s ≤ 499` and `Is5xx(s)` for `500 ≤ s ≤ 599`, and no two of them hold
for the same `s`. -/
theorem status_classes (s : StatusCode) :
    (s.Is2xx = true ↔ 200 ≤ s ∧ s ≤ 299)
    ∧ (s.Is3xx = true ↔ 300 ≤ s ∧ s ≤ 399)
    ∧ (s.Is4xx = true ↔ 400 ≤ s ∧ s ≤ 499)
    ∧ (s.Is5xx = true ↔ 500 ≤ s ∧ s ≤ 599)
    ∧ ¬ (s.Is2xx = true ∧ s.Is3xx = true)
    ∧ ¬ (s.Is2xx = true ∧ s.Is4xx = true)
    ∧ ¬ (s.Is2xx = true ∧ s.Is5xx = true)
    ∧ ¬ (s.Is3xx = true ∧ s.Is4xx = true)
    ∧ ¬ (s.Is3xx = true ∧ s.Is5xx = true)
    ∧ ¬ (s.Is4xx = true ∧ s.Is5xx = true) := by
  simp only [StatusCode.Is2xx, StatusCode.Is3xx, StatusCode.Is4xx, StatusCode.Is5xx,
    StatusCode.Code, Bool.and_eq_true, decide_eq_true_eq]
  have key : ∀ x : Int,
      (x > 199 ∧ x < 300 ↔ 200 ≤ x ∧ x ≤ 299)
      ∧ (x > 299 ∧ x < 400 ↔ 300 ≤ x ∧ x ≤ 399)
      ∧ (x > 399 ∧ x < 500 ↔ 400 ≤ x ∧ x ≤ 499)
      ∧ (x > 499 ∧ x < 600 ↔ 500 ≤ x ∧ x ≤ 599)
      ∧ ¬ ((x > 199 ∧ x < 300) ∧ x > 299 ∧ x < 400)
      ∧ ¬ ((x > 199 ∧ x < 300) ∧ x > 399 ∧ x < 500)
      ∧ ¬ ((x > 199 ∧ x < 300) ∧ x > 499 ∧ x < 600)
      ∧ ¬ ((x > 299 ∧ x < 400) ∧ x > 399 ∧ x < 500)
      ∧ ¬ ((x > 299 ∧ x < 400) ∧ x > 499 ∧ x < 600)
      ∧ ¬ ((x > 399 ∧ x < 500) ∧ x > 499 ∧ x < 600) := by
    intro x
    omega
  exact key s

/-- C27: `NewCustomError` discards the maps an option sets: for every code,
message and option list the result has the empty `ErrorMap()` and
`LoggingParams()`, also after `WithErrors(em)`; the same holds for
`NewCustomErrorWithPayload`. -/
theorem NewCustomError_discards_maps (c : Code) (m : String) (d : Value)
    (em : GoMap String String) (options : List (CustomError → CustomError)) :
    (customerror.NewCustomError c m options).ErrorMap = GoMap.make []
    ∧ (customerror.NewCustomError c m options).LoggingParams = GoMap.make []
    ∧ (customerror.NewCustomError c m (customerror.WithErrors em :: options)).ErrorMap
        = GoMap.make []
    ∧ (customerror.NewCustomErrorWithPayload c m d options).ErrorMap = GoMap.make []
    ∧ (customerror.NewCustomErrorWithPayload c m d options).LoggingParams = GoMap.make [] :=
  ⟨rfl, rfl, rfl, rfl, rfl⟩

/-! ## Paths of the handler -/

/-- C26: every decode failure yields the same response: whatever the body and
the text of the binding error, `CheckOverlap` writes one response, HTTP 400
with `IsSuccess = false`, `StatusCode = 400`, the message `Invalid Request`,
nil data and an empty error map; the binding error reaches only `Errorf`. -/
theorem CheckOverlap_decode_failure_uniform {σ : Type} (libs : Libs)
    (svc : Option (OverlapService σ)) (lg : Logger σ) (c c' : Context) (msg msg' : String)
    (s s' : σ)
    (hbind : libs.ShouldBindJSON c.Request.Body = Except.error msg)
    (hbind' : libs.ShouldBindJSON c'.Request.Body = Except.error msg') :
    (contextAfter (CheckOverlap libs { overlapService := svc, appLogger := some lg } c s)).map
        (fun ctx => ctx.written)
      = some (c.written ++ [(400, ResponseBody.error
          { IsSuccess := false
            StatusCode := 400
            Error := { Message := "Invalid Request", Errors := GoMap.make [],
                       Data := Value.nil } })])
    ∧ (contextAfter
          (CheckOverlap libs { overlapService := svc, appLogger := some lg } c' s')).map
        (fun ctx => ctx.written)
      = some (c'.written ++ [(400, ResponseBody.error
          { IsSuccess := false
            StatusCode := 400
            Error := { Message := "Invalid Request", Errors := GoMap.make [],
                       Data := Value.nil } })])
    ∧ stateAfter (CheckOverlap libs { overlapService := svc, appLogger := some lg } c s)
        = some (lg.Errorf "Unable to bind with json body :%v"
            [LogArg.err (customerror.NewCustomError error.BadRequest msg [])] s) := by
  refine ⟨?_, ?_, ?_⟩
  · simp only [CheckOverlap, hbind, contextAfter, Option.map_some']
    rfl
  · simp only [CheckOverlap, hbind', contextAfter, Option.map_some']
    rfl
  · simp only [CheckOverlap, hbind, stateAfter]

theorem CheckOverlap_decode_failure_uniform_witness :
    echoingLibs.ShouldBindJSON (postContext "\x7b\x7d").Request.Body
        = Except.error "cannot bind \x7b\x7d"
    ∧ echoingLibs.ShouldBindJSON (postContext "not json").Request.Body
        = Except.error "cannot bind not json"
    ∧ ((contextAfter (CheckOverlap echoingLibs
            { overlapService := some (MockOverlapService true), appLogger := some MockLogger }
            (postContext "\x7b\x7d") { log := [], checks := [] })).map
          (fun ctx => ctx.written)
        = some ((postContext "\x7b\x7d").written ++ [(400, ResponseBody.error
            { IsSuccess := false
              StatusCode := 400
              Error := { Message := "Invalid Request", Errors := GoMap.make [],
                         Data := Value.nil } })])
      ∧ (contextAfter (CheckOverlap echoingLibs
            { overlapService := some (MockOverlapService true), appLogger := some MockLogger }
            (postContext "not json") { log := [], checks := [] })).map
          (fun ctx => ctx.written)
        = some ((postContext "not json").written ++ [(400, ResponseBody.error
            { IsSuccess := false
              StatusCode := 400
              Error := { Message := "Invalid Request", Errors := GoMap.make [],
                         Data := Value.nil } })])
      ∧ stateAfter (CheckOverlap echoingLibs
            { overlapService := some (MockOverlapService true), appLogger := some MockLogger }
            (postContext "\x7b\x7d") { log := [], checks := [] })
          = some (MockLogger.Errorf "Unable to bind with json body :%v"
              [LogArg.err
                (customerror.NewCustomError error.BadRequest "cannot bind \x7b\x7d" [])]
              { log := [], checks := [] })) :=
  ⟨rfl, rfl, CheckOverlap_decode_failure_uniform echoingLibs (some (MockOverlapService true))
    MockLogger (postContext "\x7b\x7d") (postContext "not json") _ _
    { log := [], checks := [] } { log := [], checks := [] } rfl rfl⟩

/-- C28: two empty ranges never overlap each other: when `a.Start ≥ a.End`
and `b.Start ≥ b.End`, `Check(a, b)` returns false. -/
theorem Check_empty_ranges {σ : Type} (l : Logger σ) (a b : DateRange) (s : σ)
    (ha : a.Start ≥ a.End) (hb : b.Start ≥ b.End) :
    returned ((New (some l)).Check a b s) = some false := by
  rw [returned_Check_false_iff]
  rintro ⟨h1, h2⟩
  have h3 : a.Start < a.End := lt_trans (lt_of_lt_of_le h1 hb) h2
  exact absurd h3 (not_lt.mpr ha)

theorem Check_empty_ranges_witness :
    (createDateRange (july1 10 0 0) (july1 10 0 0)).Start
        ≥ (createDateRange (july1 10 0 0) (july1 10 0 0)).End
    ∧ (createDateRange (july1 12 0 0) (july1 9 0 0)).Start
        ≥ (createDateRange (july1 12 0 0) (july1 9 0 0)).End
    ∧ returned ((New (some recordingLogger)).Check
          (createDateRange (july1 10 0 0) (july1 10 0 0))
          (createDateRange (july1 12 0 0) (july1 9 0 0)) []) = some false :=
  ⟨by decide, by decide, Check_empty_ranges recordingLogger _ _ [] (by decide) (by decide)⟩

/-- C29: with the mocks of the handler tests registered, a request follows
exactly one of two paths and one response is written.  Either the body
decodes: `Check` is called once on `(Range1, Range2)`, the only logger call is
one `Infof` with the format `isOverlap the time range %v` and the result, and
the success envelope is written.  Or it does not: `Check` is not called, the
only logger call is one `Errorf` with the format
`Unable to bind with json body :%v`, and an error envelope is written. -/
theorem CheckOverlap_two_paths (libs : Libs) (ret : Bool) (c : Context) (w : TestWorld) :
    (∃ req : OverlapRequest,
        libs.ShouldBindJSON c.Request.Body = Except.ok req
        ∧ CheckOverlap libs
            { overlapService := some (MockOverlapService ret), appLogger := some MockLogger }
            c w
          = Except.ok
              ({ Request := c.Request
                 aborted := true
                 written := c.written ++
                   [(200, ResponseBody.success
                      { IsSuccess := true, StatusCode := 200, Data := Value.bool ret })] },
               { log := w.log ++
                   [LogCall.Infof "isOverlap the time range %v" [LogArg.bool ret]]
                 checks := w.checks ++ [(req.Range1, req.Range2)] }))
    ∨ (∃ msg : String, ∃ res : ErrorResponse,
        libs.ShouldBindJSON c.Request.Body = Except.error msg
        ∧ CheckOverlap libs
            { overlapService := some (MockOverlapService ret), appLogger := some MockLogger }
            c w
          = Except.ok
              ({ Request := c.Request
                 aborted := true
                 written := c.written ++ [(400, ResponseBody.error res)] },
               { log := w.log ++
                   [LogCall.Errorf "Unable to bind with json body :%v"
                      [LogArg.err (customerror.NewCustomError error.BadRequest msg [])]]
                 checks := w.checks })) := by
  cases hbind : libs.ShouldBindJSON c.Request.Body with
  | ok req =>
    refine Or.inl ⟨req, rfl, ?_⟩
    simp only [CheckOverlap, hbind, MockOverlapService, MockLogger]
    rfl
  | error msg =>
    refine Or.inr ⟨msg,
      { IsSuccess := false
        StatusCode := 400
        Error := { Message := "Invalid Request", Errors := GoMap.make [], Data := Value.nil } },
      rfl, ?_⟩
    simp only [CheckOverlap, hbind, MockLogger]
    rfl

/-- C30: response options cannot change the HTTP status: for every custom
error, mapping and option list `response.NewErrorResponse` writes under the
status of the mapping lookup, or 500; an option that sets `StatusCode` and
`IsSuccess` changes the body only, which then differs from the status
sent. -/
theorem NewErrorResponse_status_ignores_options (libs : Libs) (ctx : Context)
    (e : CustomError) (m : GoMap Code StatusCode) (options : List response.Option) :
    (response.NewErrorResponse libs ctx e m options).lastStatus
      = some ((m.get? e.ErrorCode).getD 500)
    ∧ (response.NewErrorResponse libs ctx e m
          (options ++ [fun res =>
            { res with IsSuccess := true
                       StatusCode := (m.get? e.ErrorCode).getD 500 + 1 }])).lastStatus
        = some ((m.get? e.ErrorCode).getD 500)
    ∧ (response.NewErrorResponse libs ctx e m
          (options ++ [fun res =>
            { res with IsSuccess := true
                       StatusCode := (m.get? e.ErrorCode).getD 500 + 1 }])).lastError.map
          (fun res => (res.IsSuccess, res.StatusCode))
        = some (true, (m.get? e.ErrorCode).getD 500 + 1) := by
  have hstatus : ∀ opts : List response.Option,
      (response.NewErrorResponse libs ctx e m opts).lastStatus
        = some ((m.get? e.ErrorCode).getD 500) := by
    intro opts
    cases hm : m.get? e.ErrorCode <;>
      simp only [response.NewErrorResponse, hm, generateErrorResponse,
        Context.lastStatus_AbortWithStatusJSON, Option.getD_none, Option.getD_some,
        StatusCode.Code, http.StatusInternalServerError]
  refine ⟨hstatus options, hstatus _, ?_⟩
  simp only [response.NewErrorResponse, generateErrorResponse,
    Context.lastError_AbortWithStatusJSON, List.foldl_append, List.foldl_cons, List.foldl_nil,
    Option.map_some']

/-! ## Options, registration and remaining facts about `Check` -/

/-- C31: error-response options run in the order given on the default
envelope built from the custom error: writes to different fields all
survive, a later write to a field overrides the default and any earlier
write, and untouched fields keep their defaults. -/
theorem generateErrorResponse_options_in_order (libs : Libs) (ctx : Context)
    (e : CustomError) (s : StatusCode) (options : List response.Option)
    (m m' : String) (d : Value) (em : GoMap String String) :
    (generateErrorResponse libs ctx e s options).lastError
      = (generateErrorResponse libs ctx e s []).lastError.map
          (fun res => options.foldl (fun acc option => option acc) res)
    ∧ (generateErrorResponse libs ctx e s
          [fun res => { res with Error := { res.Error with Message := m } },
           fun res => { res with Error := { res.Error with Data := d } },
           fun res => { res with Error := { res.Error with Errors := em } }]).lastError
        = some { IsSuccess := false
                 StatusCode := s.Code
                 Error := { Message := m, Errors := em, Data := d } }
    ∧ (generateErrorResponse libs ctx e s
          [fun res => { res with Error := { res.Error with Message := m } },
           fun res => { res with Error := { res.Error with Message := m' } }]).lastError
        = some { IsSuccess := false
                 StatusCode := s.Code
                 Error := { Message := m', Errors := e.ErrorMap, Data := e.ErrorData } }
    ∧ (generateErrorResponse libs ctx e s
          [fun res => { res with Error := { res.Error with Message := m } }]).lastError
        = some { IsSuccess := false
                 StatusCode := s.Code
                 Error := { Message := m, Errors := e.ErrorMap, Data := e.ErrorData } } := by
  refine ⟨?_, ?_, ?_, ?_⟩ <;>
    simp only [generateErrorResponse, Context.lastError_AbortWithStatusJSON, List.foldl_cons,
      List.foldl_nil, Option.map_some']

/-- C32: for every custom error and message, `NewErrorResponseWithMessage`
writes an envelope with `Error.Message` equal to the message, under the
status of the global mapping for the error's code, or 500 when the code is
unmapped, and with `Data` and `Errors` taken from the error. -/
theorem NewErrorResponseWithMessage_envelope (libs : Libs) (v : response.Vars)
    (ctx : Context) (e : CustomError) (msg : String) :
    (NewErrorResponseWithMessage libs v ctx e msg).written
      = ctx.written ++
          [((v.customCodeToHttpCodeMapping.get? e.ErrorCode).getD 500,
            ResponseBody.error
              { IsSuccess := false
                StatusCode := (v.customCodeToHttpCodeMapping.get? e.ErrorCode).getD 500
                Error := { Message := msg, Errors := e.ErrorMap, Data := e.ErrorData } })] := by
  cases hm : v.customCodeToHttpCodeMapping.get? e.ErrorCode <;>
    simp only [NewErrorResponseWithMessage, NewErrorResponseV2, hm, generateErrorResponse,
      Context.AbortWithStatusJSON, List.foldl_cons, List.foldl_nil, Option.getD_none,
      Option.getD_some, StatusCode.Code, http.StatusInternalServerError]

/-- C33: registration is last-writer-wins on the package-level variables:
after `RegisterEndpoint(g1, s1, l1)` and then `RegisterEndpoint(g2, s2, l2)`
on two fresh engines, the variables hold `s2` and `l2`, and a
`POST /api/v1/overlap-check` served through either engine runs
`CheckOverlap` with `s2` and `l2`. -/
theorem RegisterEndpoint_last_wins {σ : Type} (libs : Libs)
    (s1 s2 : Option (OverlapService σ)) (l1 l2 : Option (Logger σ)) (vars0 : Globals σ)
    (flag1 flag2 : Bool) (body : String) (st : σ) :
    ∃ g1 g2 : Engine σ,
      (RegisterEndpoint libs { routes := [], HandleMethodNotAllowed := flag1 } s1 l1 vars0).2
        = Except.ok g1
      ∧ (RegisterEndpoint libs { routes := [], HandleMethodNotAllowed := flag2 } s2 l2
          (RegisterEndpoint libs { routes := [], HandleMethodNotAllowed := flag1 }
            s1 l1 vars0).1).2
        = Except.ok g2
      ∧ (RegisterEndpoint libs { routes := [], HandleMethodNotAllowed := flag2 } s2 l2
          (RegisterEndpoint libs { routes := [], HandleMethodNotAllowed := flag1 }
            s1 l1 vars0).1).1
        = { overlapService := s2, appLogger := l2 }
      ∧ g1.ServeHTTP
          (RegisterEndpoint libs { routes := [], HandleMethodNotAllowed := flag2 } s2 l2
            (RegisterEndpoint libs { routes := [], HandleMethodNotAllowed := flag1 }
              s1 l1 vars0).1).1
          { Method := "POST", Path := "/api/v1/overlap-check", Body := body } st
        = CheckOverlap libs { overlapService := s2, appLogger := l2 } (postContext body) st
      ∧ g2.ServeHTTP
          (RegisterEndpoint libs { routes := [], HandleMethodNotAllowed := flag2 } s2 l2
            (RegisterEndpoint libs { routes := [], HandleMethodNotAllowed := flag1 }
              s1 l1 vars0).1).1
          { Method := "POST", Path := "/api/v1/overlap-check", Body := body } st
        = CheckOverlap libs { overlapService := s2, appLogger := l2 } (postContext body) st := by
  have hpath : ("/api/v1" : String) ++ "/overlap-check" = "/api/v1/overlap-check" := by decide
  refine ⟨{ routes := [{ Method := "POST", Path := "/api/v1/overlap-check",
                         Handler := CheckOverlap libs }],
            HandleMethodNotAllowed := flag1 },
          { routes := [{ Method := "POST", Path := "/api/v1/overlap-check",
                         Handler := CheckOverlap libs }],
            HandleMethodNotAllowed := flag2 }, ?_, ?_, rfl, ?_, ?_⟩
  · simp [RegisterEndpoint, Engine.POST, hpath]
  · simp [RegisterEndpoint, Engine.POST, hpath]
  · simp [Engine.ServeHTTP, RegisterEndpoint, postContext]
  · simp [Engine.ServeHTTP, RegisterEndpoint, postContext]

/-- C34: overlap is monotone under widening: when `a'.Start ≤ a.Start`,
`a.End ≤ a'.End` and `Check(a, b)` returns true, `Check(a', b)` returns true,
and so does `Check(b, a')`, where the widened range is the second
argument. -/
theorem Check_mono_widen {σ : Type} (l : Logger σ) (a a' b : DateRange) (s : σ)
    (hStart : a'.Start ≤ a.Start) (hEnd : a.End ≤ a'.End)
    (hc : returned ((New (some l)).Check a b s) = some true) :
    returned ((New (some l)).Check a' b s) = some true
    ∧ returned ((New (some l)).Check b a' s) = some true := by
  rw [returned_Check_true_iff] at hc
  have h1 : a'.Start < b.End := lt_of_le_of_lt hStart hc.1
  have h2 : b.Start < a'.End := lt_of_lt_of_le hc.2 hEnd
  exact ⟨(returned_Check_true_iff l a' b s).mpr ⟨h1, h2⟩,
    (returned_Check_true_iff l b a' s).mpr ⟨h2, h1⟩⟩

theorem Check_mono_widen_witness :
    (createDateRange (july1 9 0 0) (july1 13 0 0)).Start
        ≤ (createDateRange (july1 10 0 0) (july1 12 0 0)).Start
    ∧ (createDateRange (july1 10 0 0) (july1 12 0 0)).End
        ≤ (createDateRange (july1 9 0 0) (july1 13 0 0)).End
    ∧ returned ((New (some recordingLogger)).Check
          (createDateRange (july1 10 0 0) (july1 12 0 0))
          (createDateRange (july1 11 0 0) (july1 13 0 0)) []) = some true
    ∧ (returned ((New (some recordingLogger)).Check
          (createDateRange (july1 9 0 0) (july1 13 0 0))
          (createDateRange (july1 11 0 0) (july1 13 0 0)) []) = some true
      ∧ returned ((New (some recordingLogger)).Check
          (createDateRange (july1 11 0 0) (july1 13 0 0))
          (createDateRange (july1 9 0 0) (july1 13 0 0)) []) = some true) :=
  ⟨by decide, by decide, by decide,
    Check_mono_widen recordingLogger
      (createDateRange (july1 10 0 0) (july1 12 0 0))
      (createDateRange (july1 9 0 0) (july1 13 0 0))
      (createDateRange (july1 11 0 0) (july1 13 0 0)) [] (by decide) (by decide) (by decide)⟩

/-- C35: separated ranges do not overlap in either order: when
`a.End < b.Start`, both `Check(a, b)` and `Check(b, a)` return false. -/
theorem Check_separated {σ : Type} (l : Logger σ) (a b : DateRange) (s : σ)
    (h : a.End < b.Start) :
    returned ((New (some l)).Check a b s) = some false
    ∧ returned ((New (some l)).Check b a s) = some false := by
  constructor
  · rw [returned_Check_false_iff]
    exact fun hc => lt_asymm h hc.2
  · rw [returned_Check_false_iff]
    exact fun hc => lt_asymm h hc.1

theorem Check_separated_witness :
    (createDateRange (july1 10 0 0) (july1 11 0 0)).End
        < (createDateRange (july1 11 0 1) (july1 12 0 0)).Start
    ∧ (returned ((New (some recordingLogger)).Check
          (createDateRange (july1 10 0 0) (july1 11 0 0))
          (createDateRange (july1 11 0 1) (july1 12 0 0)) []) = some false
      ∧ returned ((New (some recordingLogger)).Check
          (createDateRange (july1 11 0 1) (july1 12 0 0))
          (createDateRange (july1 10 0 0) (july1 11 0 0)) []) = some false) :=
  ⟨by decide, Check_separated recordingLogger _ _ [] (by decide)⟩

/-- C36: an invocation of `Check` on a service built by `New(logger)` calls
`logger.Info` once with the fixed message and no other logger method: the
state it leaves is that of this one call, a recording logger gains exactly
that entry, a nil logger makes the call panic before any result, and the
boolean returned is the same for every logger. -/
theorem Check_calls_Info_once {σ τ : Type} (l : Logger σ) (l' : Logger τ)
    (r1 r2 : DateRange) (s : σ) (s' : τ) (tr : List LogCall) :
    (New (some l)).Check r1 r2 s
      = Except.ok (r1.Start.Before r2.End && r2.Start.Before r1.End,
          l.Info [LogArg.str "Checking time range  with overlapservice"] s)
    ∧ stateAfter ((New (some recordingLogger)).Check r1 r2 tr)
        = some (tr ++ [LogCall.Info [LogArg.str "Checking time range  with overlapservice"]])
    ∧ (New (none : Option (Logger σ))).Check r1 r2 s
        = Except.error Panic.nilPointerDereference
    ∧ returned ((New (some l)).Check r1 r2 s) = returned ((New (some l')).Check r1 r2 s') :=
  ⟨rfl, rfl, rfl, rfl⟩

end Overlap
